import Mathlib

/-!
Verification of the DealBreakr scoring core against its specification.

The definitions below are a shallow embedding of the TypeScript source:
* `src/types/index.ts` and `src/types/buyer-profile.ts` (domain model),
* `src/lib/fit-engine.ts` (`computeFitScore` and its helpers),
* `src/app/(main)/results/[id]/page.tsx` (`categorySummary`).

JavaScript numbers are modelled as rationals (`ℚ`), `null`-able values as
`Option`, and `Math.round` as `jsRound` (floor of `x + 1/2`, the JS rounding
rule).  JavaScript truthiness tests on numbers (`x` is falsy iff `x` is 0 or
null) and on strings (falsy iff empty or null) are translated explicitly at
each use site.
-/

set_option maxRecDepth 8000
set_option maxHeartbeats 1000000

namespace DealBreakr

/-! ## Domain model: enumerations (src/types/index.ts, src/types/buyer-profile.ts) -/

/-- The six fixed scoring categories (`SCORING_CATEGORIES` in src/types/index.ts). -/
inductive ScoringCategory
  | record_mismatch
  | pricing_anomaly
  | ownership_title
  | disclosure_ambiguity
  | neighborhood_fit
  | renovation_permit
deriving DecidableEq

/-- Claim verdicts (`Verdict` in src/types/index.ts). -/
inductive Verdict
  | verified
  | unverified
  | contradiction
  | marketing
deriving DecidableEq

/-- Claim severities (`Severity` in src/types/index.ts). -/
inductive Severity
  | info
  | caution
  | warning
  | critical
deriving DecidableEq

/-- Claim sources (the `source` union in `ClaudeClaim`, src/types/index.ts). -/
inductive ClaimSource
  | listing
  | public_record
  | inference
deriving DecidableEq

/-- Evidence types (src/types/index.ts). -/
inductive EvidenceType
  | supports
  | contradicts
  | neutral
deriving DecidableEq

/-- Buyer situations (`BUYER_SITUATIONS` in src/types/buyer-profile.ts). -/
inductive BuyerSituation
  | first_time
  | upgrading
  | downsizing
  | investor
  | relocating
  | retiring
  | multigenerational
deriving DecidableEq

/-- Household member tags (`HOUSEHOLD_MEMBERS` in src/types/buyer-profile.ts). -/
inductive HouseholdMember
  | solo
  | couple
  | family_young_kids
  | family_teens
  | elderly_parent
  | roommates
  | caregiver_present
deriving DecidableEq

/-- Accessibility needs (`ACCESSIBILITY_NEEDS` in src/types/buyer-profile.ts).
The sentinel `none` means "no accessibility needs". -/
inductive AccessibilityNeed
  | wheelchair_full
  | wheelchair_occasional
  | mobility_limited
  | visual_impairment
  | hearing_impairment
  | sensory_sensitivity
  | chronic_fatigue
  | respiratory
  | cognitive
  | child_disability
  | temporary_injury
  | aging_in_place
  | none
deriving DecidableEq

/-- Property feature tags (`PROPERTY_FEATURES` in src/types/buyer-profile.ts). -/
inductive PropertyFeature
  | single_story
  | elevator
  | wide_doorways
  | accessible_bathroom
  | roll_in_shower
  | no_step_entry
  | garage
  | yard
  | pool
  | good_schools
  | walkable
  | near_transit
  | near_medical
  | near_grocery
  | quiet_street
  | low_hoa
  | no_hoa
  | new_construction
  | central_ac
  | solar
  | ev_charging
  | home_office
  | guest_suite
  | low_maintenance
  | pet_friendly
  | gated_community
  | flat_lot
  | laundry_main_floor
deriving DecidableEq

/-- Commute modes (`COMMUTE_MODES` in src/types/buyer-profile.ts). -/
inductive CommuteMode
  | driving
  | transit
  | biking
  | walking
  | remote
  | wheelchair_accessible_transit
deriving DecidableEq

/-- Fit labels (the `label` union of `FitScoreResult`, src/types/buyer-profile.ts). -/
inductive FitLabel
  | great_match
  | good_match
  | fair
  | poor_match
  | dealbreaker
deriving DecidableEq

/-- Feature importance (the `importance` union of `FitFeatureMatch`). -/
inductive FeatureImportance
  | must_have
  | nice_to_have
  | dealbreaker
deriving DecidableEq

/-- Feature match status (the `status` union of `FitFeatureMatch`). -/
inductive MatchStatus
  | matched
  | missing
  | unknown
  | violated
deriving DecidableEq

/-- Accessibility flag severities (the `severity` union of `AccessibilityFlag`). -/
inductive FlagSeverity
  | blocker
  | concern
  | manageable
  | clear
deriving DecidableEq

/-- Suggestion categories (the `category` union of `PropertySuggestion`). -/
inductive SuggestionCategory
  | look_for
  | watch_out
  | ask_about
  | modify
deriving DecidableEq

/-- Suggestion priorities (the `priority` union of `PropertySuggestion`). -/
inductive SuggestionPriority
  | high
  | medium
  | low
deriving DecidableEq

/-! ## Domain model: structures -/

/-- Structure `PropertySnapshot` (src/types/index.ts): every field independently nullable. -/
structure PropertySnapshot where
  beds : Option ℚ
  baths : Option ℚ
  sqft : Option ℚ
  lotSqft : Option ℚ
  yearBuilt : Option ℚ
  stories : Option ℚ
  garage : Option String
  hoa : Option ℚ
  zoning : Option String
  taxAssessedValue : Option ℚ
  lastSaleDate : Option String
  lastSalePrice : Option ℚ
deriving DecidableEq

/-- Structure `ComparableProperty` (src/types/index.ts). -/
structure ComparableProperty where
  address : String
  price : ℚ
  sqft : ℚ
  beds : ℚ
  baths : ℚ
  soldDate : String
  ppsf : ℚ
deriving DecidableEq

/-- Structure `MarketContext` (src/types/index.ts). -/
structure MarketContext where
  medianAreaPrice : Option ℚ
  pricePerSqft : Option ℚ
  areaMedianPpsf : Option ℚ
  avgDaysOnMarket : Option ℚ
  inventoryLevel : Option String
  comparables : List ComparableProperty
deriving DecidableEq

/-- Structure `ClaudeEvidence` (src/types/index.ts). -/
structure Evidence where
  type : EvidenceType
  source : String
  description : String
  dataPoint : Option String
deriving DecidableEq

/-- Structure `ClaudeClaim` (src/types/index.ts): one verifiable assertion from a listing. -/
structure Claim where
  category : ScoringCategory
  statement : String
  source : ClaimSource
  verdict : Verdict
  confidence : ℚ
  explanation : String
  severity : Severity
  evidence : List Evidence
deriving DecidableEq

/-- Structure `ClaudeActionItem` (src/types/index.ts); not consulted by the fit engine. -/
structure ActionItem where
  category : String
  priority : String
  title : String
  description : String
deriving DecidableEq

/-- Structure `BuyerProfile` (src/types/buyer-profile.ts). -/
structure BuyerProfile where
  situation : BuyerSituation
  householdMembers : List HouseholdMember
  householdSize : ℚ
  accessibilityNeeds : List AccessibilityNeed
  accessibilityNotes : String
  budgetMin : ℚ
  budgetMax : ℚ
  budgetStretch : ℚ
  monthlyPaymentMax : ℚ
  mustHaves : List PropertyFeature
  niceToHaves : List PropertyFeature
  dealbreakers : List PropertyFeature
  commuteDestination : String
  commuteMode : CommuteMode
  maxCommuteMinutes : ℚ
  bedsMin : ℚ
  bathsMin : ℚ
  sqftMin : ℚ
  prioritizeOutdoorSpace : Bool
  hasPets : Bool
  petTypes : List String
deriving DecidableEq

/-- Structure `FitCategory` (src/types/buyer-profile.ts): one row of the score breakdown. -/
structure FitCategory where
  name : String
  score : ℚ
  weight : ℚ
  details : String
deriving DecidableEq

/-- Structure `FitFeatureMatch` (src/types/buyer-profile.ts). -/
structure FitFeatureMatch where
  feature : PropertyFeature
  label : String
  importance : FeatureImportance
  status : MatchStatus
  explanation : String
deriving DecidableEq

/-- Structure `AccessibilityFlag` (src/types/buyer-profile.ts). -/
structure AccessibilityFlag where
  need : AccessibilityNeed
  label : String
  severity : FlagSeverity
  issue : String
  recommendation : String
deriving DecidableEq

/-- Structure `PropertySuggestion` (src/types/buyer-profile.ts). -/
structure PropertySuggestion where
  category : SuggestionCategory
  icon : String
  title : String
  description : String
  priority : SuggestionPriority
deriving DecidableEq

/-- Structure `FitScoreResult` (src/types/buyer-profile.ts): the engine output. -/
structure FitScoreResult where
  overallScore : ℚ
  label : FitLabel
  summary : String
  breakdown : List FitCategory
  matchedFeatures : List FitFeatureMatch
  missedFeatures : List FitFeatureMatch
  accessibilityFlags : List AccessibilityFlag
  suggestions : List PropertySuggestion
deriving DecidableEq

/-- Structure `AnalysisData` (the analysis-input interface in src/lib/fit-engine.ts). -/
structure AnalysisData where
  propertySnapshot : Option PropertySnapshot
  marketContext : Option MarketContext
  trustScore : ℚ
  trustLabel : String
  listPrice : Option ℚ
  claims : List Claim
  actionItems : List ActionItem
deriving DecidableEq

/-! ## Numeric and string helpers -/

/-- JavaScript `Math.round`: round half toward positive infinity,
i.e. `⌊x + 1/2⌋`, written with `Rat.num`/`Rat.den` so it evaluates by `decide`. -/
def jsRound (x : ℚ) : ℚ := (((x + 1/2).num / ((x + 1/2).den : ℤ) : ℤ) : ℚ)

theorem jsRound_eq_floor (x : ℚ) : jsRound x = ((⌊x + 1/2⌋ : ℤ) : ℚ) := by
  rw [jsRound, Rat.floor_def]

/-- Rendering of a number into a details string (stands in for JS
`toLocaleString`/string coercion; the exact digit grouping is not modelled). -/
def fmtNum (q : ℚ) : String :=
  if q.den = 1 then toString q.num else toString q.num ++ "/" ++ toString q.den

/-- JS `String.prototype.toLowerCase`, character by character. -/
def strLower (s : String) : String := ⟨s.data.map Char.toLower⟩

/-- JS `String.prototype.includes`: substring test. -/
def strContainsSub (s pat : String) : Bool :=
  s.data.tails.any (fun t => pat.data.isPrefixOf t)

/-- JS `need.replace(/_/g, " ")`. -/
def underscoreToSpace (s : String) : String :=
  ⟨s.data.map (fun c => if c = '_' then ' ' else c)⟩

/-- The wire string of each accessibility need (the TS string-enum value). -/
def needString : AccessibilityNeed → String
  | .wheelchair_full => "wheelchair_full"
  | .wheelchair_occasional => "wheelchair_occasional"
  | .mobility_limited => "mobility_limited"
  | .visual_impairment => "visual_impairment"
  | .hearing_impairment => "hearing_impairment"
  | .sensory_sensitivity => "sensory_sensitivity"
  | .chronic_fatigue => "chronic_fatigue"
  | .respiratory => "respiratory"
  | .cognitive => "cognitive"
  | .child_disability => "child_disability"
  | .temporary_injury => "temporary_injury"
  | .aging_in_place => "aging_in_place"
  | .none => "none"

/-- Table `FEATURE_NAME_MAP` and helper `featureName` in src/lib/fit-engine.ts. -/
def featureName : PropertyFeature → String
  | .single_story => "Single Story"
  | .elevator => "Elevator"
  | .wide_doorways => "Wide Doorways"
  | .accessible_bathroom => "Accessible Bathroom"
  | .roll_in_shower => "Roll-In Shower"
  | .no_step_entry => "No-Step Entry"
  | .garage => "Garage"
  | .yard => "Yard"
  | .pool => "Pool"
  | .good_schools => "Good Schools"
  | .walkable => "Walkable"
  | .near_transit => "Near Transit"
  | .near_medical => "Near Medical"
  | .near_grocery => "Near Grocery"
  | .quiet_street => "Quiet Street"
  | .low_hoa => "Low HOA"
  | .no_hoa => "No HOA"
  | .new_construction => "New Construction"
  | .central_ac => "Central A/C"
  | .solar => "Solar"
  | .ev_charging => "EV Charging"
  | .home_office => "Home Office"
  | .guest_suite => "Guest Suite"
  | .low_maintenance => "Low Maintenance"
  | .pet_friendly => "Pet Friendly"
  | .gated_community => "Gated"
  | .flat_lot => "Flat Lot"
  | .laundry_main_floor => "Main Floor Laundry"

/-! ## Effective price (src/lib/fit-engine.ts, `getEffectivePrice`) -/

/-- Function `getEffectivePrice`: best available price for budget comparison.
Priority: listPrice, then taxAssessedValue, then lastSalePrice; a candidate
is taken when it is non-null and positive (the JS guard `v && v > 0`). -/
def getEffectivePrice (analysis : AnalysisData) : Option ℚ :=
  match analysis.listPrice with
  | Option.some lp =>
    if 0 < lp then Option.some lp else
    match analysis.propertySnapshot with
    | Option.none => Option.none
    | Option.some snap =>
      match snap.taxAssessedValue with
      | Option.some tav =>
        if 0 < tav then Option.some tav else
        match snap.lastSalePrice with
        | Option.some lsp => if 0 < lsp then Option.some lsp else Option.none
        | Option.none => Option.none
      | Option.none =>
        match snap.lastSalePrice with
        | Option.some lsp => if 0 < lsp then Option.some lsp else Option.none
        | Option.none => Option.none
  | Option.none =>
    match analysis.propertySnapshot with
    | Option.none => Option.none
    | Option.some snap =>
      match snap.taxAssessedValue with
      | Option.some tav =>
        if 0 < tav then Option.some tav else
        match snap.lastSalePrice with
        | Option.some lsp => if 0 < lsp then Option.some lsp else Option.none
        | Option.none => Option.none
      | Option.none =>
        match snap.lastSalePrice with
        | Option.some lsp => if 0 < lsp then Option.some lsp else Option.none
        | Option.none => Option.none

/-- Spec-side characterization of the effective price: the first non-null,
positive candidate in the priority-ordered list. -/
def firstPositive : List (Option ℚ) → Option ℚ
  | [] => Option.none
  | Option.some x :: rest => if 0 < x then Option.some x else firstPositive rest
  | Option.none :: rest => firstPositive rest

/-- Spec-side effective price: priority order listing price, tax-assessed
value, last sale price. -/
def effectivePriceSpec (analysis : AnalysisData) : Option ℚ :=
  firstPositive
    [ analysis.listPrice,
      analysis.propertySnapshot.bind PropertySnapshot.taxAssessedValue,
      analysis.propertySnapshot.bind PropertySnapshot.lastSalePrice ]

/-! ## Budget Fit (src/lib/fit-engine.ts section 1) -/

/-- Result of the Budget Fit section: score, details and the suggestions it
pushes. -/
structure BudgetOut where
  score : ℚ
  details : String
  suggestions : List PropertySuggestion
deriving DecidableEq

/-- Budget Fit scoring (weight 0.25).  Within budget: 100.  Within stretch:
`Math.round(60 - (overBy/stretchRange)*40)` plus a watch_out suggestion.
Over stretch: `Math.max(0, 15 - Math.round(pctOver/2))` plus a high-priority
suggestion.  No price data: 40. -/
def budgetFit (profile : BuyerProfile) (analysis : AnalysisData) : BudgetOut :=
  match getEffectivePrice analysis with
  | Option.some price =>
    let priceLabel :=
      match analysis.listPrice with
      | Option.some lp => if lp ≠ 0 then "list price" else "estimated value"
      | Option.none => "estimated value"
    if price ≤ profile.budgetMax then
      { score := 100
        details := "At $" ++ fmtNum price ++ " (" ++ priceLabel ++ "), within your $"
          ++ fmtNum profile.budgetMax ++ " budget."
        suggestions := [] }
    else if price ≤ profile.budgetStretch then
      let overBy := price - profile.budgetMax
      let stretchRange := profile.budgetStretch - profile.budgetMax
      { score := jsRound (60 - (overBy / stretchRange) * 40)
        details := "At $" ++ fmtNum price ++ " (" ++ priceLabel ++ "), $" ++ fmtNum overBy
          ++ " over preferred max but within stretch."
        suggestions :=
          [ { category := SuggestionCategory.watch_out
              icon := "DollarSign"
              title := "Over your preferred budget"
              description := "This property is $" ++ fmtNum overBy
                ++ " above your preferred maximum of $" ++ fmtNum profile.budgetMax ++ "."
              priority := SuggestionPriority.high } ] }
    else
      let overStretch := price - profile.budgetStretch
      let pctOver := (overStretch / profile.budgetStretch) * 100
      { score := max 0 (15 - jsRound (pctOver / 2))
        details := "At $" ++ fmtNum price ++ " (" ++ priceLabel ++ "), exceeds your stretch budget of $"
          ++ fmtNum profile.budgetStretch ++ " by $" ++ fmtNum overStretch ++ "."
        suggestions :=
          [ { category := SuggestionCategory.watch_out
              icon := "DollarSign"
              title := "Significantly over budget"
              description := "This property is $" ++ fmtNum overStretch
                ++ " above your absolute maximum. Likely not affordable."
              priority := SuggestionPriority.high } ] }
  | Option.none =>
    { score := 40
      details := "No price data available. Cannot evaluate budget fit."
      suggestions := [] }

/-! ## Size & Layout (src/lib/fit-engine.ts section 2) -/

/-- Result of the Size & Layout section. -/
structure SizeOut where
  score : ℚ
  details : String
deriving DecidableEq

/-- Size & Layout scoring (weight 0.20).  Starts at 100; bed deficit costs
25 per missing bed (unknown beds: 10), bath deficit a flat 20 (unknown: 5),
sqft deficit up to 35 scaled by percentage shortfall (unknown: 10); clamped
to [0, 100].  No snapshot at all: fixed 35. -/
def sizeFit (profile : BuyerProfile) (snapshot : Option PropertySnapshot) : SizeOut :=
  let rawAndDetails : ℚ × String :=
    match snapshot with
    | Option.some s =>
      let bedPart : ℚ × List String :=
        match s.beds with
        | Option.some b =>
          if 0 < profile.bedsMin then
            if b < profile.bedsMin then
              ((profile.bedsMin - b) * 25,
               [fmtNum b ++ " beds (you need " ++ fmtNum profile.bedsMin ++ "+)"])
            else (0, [])
          else (0, [])
        | Option.none =>
          if 0 < profile.bedsMin then
            (10, ["Bed count unknown (you need " ++ fmtNum profile.bedsMin ++ "+)"])
          else (0, [])
      let bathPart : ℚ × List String :=
        match s.baths with
        | Option.some b =>
          if 0 < profile.bathsMin then
            if b < profile.bathsMin then
              (20, [fmtNum b ++ " baths (you need " ++ fmtNum profile.bathsMin ++ "+)"])
            else (0, [])
          else (0, [])
        | Option.none =>
          if 0 < profile.bathsMin then
            (5, ["Bath count unknown (you need " ++ fmtNum profile.bathsMin ++ "+)"])
          else (0, [])
      let sqftPart : ℚ × List String :=
        if 0 < profile.sqftMin then
          match s.sqft with
          | Option.some q =>
            if q < profile.sqftMin then
              (min 35 (jsRound (((profile.sqftMin - q) / profile.sqftMin) * 100)),
               [fmtNum q ++ " sqft (you want " ++ fmtNum profile.sqftMin ++ "+)"])
            else (0, [])
          | Option.none =>
            (10, ["Square footage unknown (you want " ++ fmtNum profile.sqftMin ++ "+)"])
        else (0, [])
      let issues := bedPart.2 ++ bathPart.2 ++ sqftPart.2
      (100 - bedPart.1 - bathPart.1 - sqftPart.1,
       if 0 < issues.length then "Size concerns: " ++ String.intercalate "; " issues
       else "Property meets your size requirements.")
    | Option.none =>
      (35, "No property details available — cannot verify size requirements.")
  { score := max 0 (min 100 rawAndDetails.1), details := rawAndDetails.2 }

/-! ## Accessibility Fit (src/lib/fit-engine.ts section 3) -/

/-- The test `profile.accessibilityNeeds.filter(n => n !== "none").length > 0`. -/
def hasAccessibilityNeeds (profile : BuyerProfile) : Bool :=
  decide (0 < (profile.accessibilityNeeds.filter
    (fun n => decide (n ≠ AccessibilityNeed.none))).length)

/-- The access `snapshot?.stories ?? null`. -/
def storiesOf (snapshot : Option PropertySnapshot) : Option ℚ :=
  match snapshot with
  | Option.some s => s.stories
  | Option.none => Option.none

/-- The needs tested in the multi-story branch (wheelchair, mobility-limited
or chronic-fatigue). -/
def wheelOrFatigue : AccessibilityNeed → Bool
  | .wheelchair_full => true
  | .wheelchair_occasional => true
  | .mobility_limited => true
  | .chronic_fatigue => true
  | _ => false

/-- The needs tested in the single-story and stories-unknown branches. -/
def wheelGroup : AccessibilityNeed → Bool
  | .wheelchair_full => true
  | .wheelchair_occasional => true
  | .mobility_limited => true
  | _ => false

/-- A claim counts toward the sensory-sensitivity noise scan when its
category is neighborhood_fit and its lowercased statement mentions
noise/traffic/highway/airport. -/
def isNoiseClaim (c : Claim) : Bool :=
  decide (c.category = ScoringCategory.neighborhood_fit) &&
    (strContainsSub (strLower c.statement) "noise" ||
     strContainsSub (strLower c.statement) "traffic" ||
     strContainsSub (strLower c.statement) "highway" ||
     strContainsSub (strLower c.statement) "airport")

/-- Penalty, flags and suggestions contributed by the stairs/stories branch
for one accessibility need (the first if/else-if chain of the loop body). -/
def stairsDelta (snapshot : Option PropertySnapshot) (need : AccessibilityNeed) :
    ℚ × List AccessibilityFlag × List PropertySuggestion :=
  match storiesOf snapshot with
  | Option.some n =>
    if wheelOrFatigue need ∧ 1 < n then
      ((if need = AccessibilityNeed.wheelchair_full then 50 else 25),
       [ { need := need
           label := underscoreToSpace (needString need)
           severity := if need = AccessibilityNeed.wheelchair_full
             then FlagSeverity.blocker else FlagSeverity.concern
           issue := fmtNum n ++ "-story home. " ++
             (if need = AccessibilityNeed.wheelchair_full
              then "Full-time wheelchair users need single-story or elevator."
              else "Multi-story may be challenging.")
           recommendation := if need = AccessibilityNeed.wheelchair_full
             then "This property likely won\x27t work without a residential elevator ($20K-$50K). Consider single-story alternatives."
             else "Check if main floor has bedroom, bathroom, kitchen, and laundry." } ],
       [ { category := SuggestionCategory.ask_about
           icon := "Accessibility"
           title := "Ask about main floor livability"
           description := "With " ++ underscoreToSpace (needString need)
             ++ " needs, confirm bedroom and full bathroom on main floor."
           priority := SuggestionPriority.high } ])
    else if wheelGroup need ∧ n = 1 then
      (0,
       [ { need := need
           label := underscoreToSpace (needString need)
           severity := FlagSeverity.manageable
           issue := "Single-story is positive for mobility needs."
           recommendation := "Verify doorway widths (36\"+), entry step height, and bathroom configuration." } ],
       [])
    else (0, [], [])
  | Option.none =>
    if wheelGroup need then
      (15,
       [ { need := need
           label := underscoreToSpace (needString need)
           severity := FlagSeverity.concern
           issue := "Number of stories unknown — cannot verify accessibility."
           recommendation := "Confirm if single-story or has elevator access before visiting." } ],
       [])
    else (0, [], [])

/-- Penalty and flag contributed by the sensory-sensitivity noise scan. -/
def sensoryDelta (claims : List Claim) (need : AccessibilityNeed) :
    ℚ × List AccessibilityFlag :=
  if need = AccessibilityNeed.sensory_sensitivity then
    if 0 < (claims.filter isNoiseClaim).length then
      (25,
       [ { need := need
           label := "Sensory Sensitivity"
           severity := FlagSeverity.concern
           issue := "Potential noise concerns found in the neighborhood."
           recommendation := "Visit at multiple times of day. Check proximity to major roads." } ])
    else (0, [])
  else (0, [])

/-- Penalty and flag contributed by the respiratory old-build check
(`snapshot?.yearBuilt && snapshot.yearBuilt < 1990`). -/
def respiratoryDelta (snapshot : Option PropertySnapshot) (need : AccessibilityNeed) :
    ℚ × List AccessibilityFlag :=
  if need = AccessibilityNeed.respiratory then
    match snapshot with
    | Option.some s =>
      match s.yearBuilt with
      | Option.some y =>
        if y ≠ 0 ∧ y < 1990 then
          (15,
           [ { need := need
               label := "Respiratory Needs"
               severity := FlagSeverity.concern
               issue := "Built in " ++ fmtNum y ++ " — older homes may have ventilation issues."
               recommendation := "Request mold inspection and air quality test. Check HVAC." } ])
        else (0, [])
      | Option.none => (0, [])
    | Option.none => (0, [])
  else (0, [])

/-- JS `stories !== null && stories > 1` on the optional stories count. -/
def isMultiStory (snapshot : Option PropertySnapshot) : Bool :=
  match storiesOf snapshot with
  | Option.some n => decide (1 < n)
  | Option.none => false

/-- Penalty, flag and suggestion contributed by the aging-in-place
multi-story check. -/
def agingDelta (snapshot : Option PropertySnapshot) (need : AccessibilityNeed) :
    ℚ × List AccessibilityFlag × List PropertySuggestion :=
  if need = AccessibilityNeed.aging_in_place ∧ isMultiStory snapshot then
    (20,
     [ { need := need
         label := "Aging in Place"
         severity := FlagSeverity.concern
         issue := "Multi-story may become challenging as mobility changes."
         recommendation := "Evaluate main-floor master suite potential." } ],
     [ { category := SuggestionCategory.modify
         icon := "Wrench"
         title := "Aging-in-place modification potential"
         description := "Get estimate for: main-floor bedroom, grab bars, walk-in shower, wider doorways."
         priority := SuggestionPriority.medium } ])
  else (0, [], [])

/-- One iteration of the accessibility loop: the total penalty, flags and
suggestions pushed for one need (`continue` on the sentinel `none`). -/
def needDelta (snapshot : Option PropertySnapshot) (claims : List Claim)
    (need : AccessibilityNeed) : ℚ × List AccessibilityFlag × List PropertySuggestion :=
  if need = AccessibilityNeed.none then (0, [], [])
  else
    let st := stairsDelta snapshot need
    let se := sensoryDelta claims need
    let re := respiratoryDelta snapshot need
    let ag := agingDelta snapshot need
    (st.1 + se.1 + re.1 + ag.1,
     st.2.1 ++ se.2 ++ re.2 ++ ag.2.1,
     st.2.2 ++ ag.2.2)

/-- Result of the Accessibility section. -/
structure AccessOut where
  score : ℚ
  details : String
  flags : List AccessibilityFlag
  suggestions : List PropertySuggestion
deriving DecidableEq

/-- Accessibility scoring (weight 0.30 with declared needs, 0.05 without).
Starts at 100 and subtracts the per-need penalties; clamped to [0, 100]. -/
def accessFit (profile : BuyerProfile) (snapshot : Option PropertySnapshot)
    (claims : List Claim) : AccessOut :=
  if hasAccessibilityNeeds profile then
    let deltas := profile.accessibilityNeeds.map (needDelta snapshot claims)
    let flags := (deltas.map (fun d => d.2.1)).flatten
    let sugg := (deltas.map (fun d => d.2.2)).flatten
    let raw := 100 - (deltas.map (fun d => d.1)).sum
    let details :=
      if 0 < flags.length then
        toString (flags.filter (fun f => decide (f.severity = FlagSeverity.blocker))).length
          ++ " blockers, "
          ++ toString (flags.filter (fun f => decide (f.severity = FlagSeverity.concern))).length
          ++ " concerns for accessibility."
      else "No major accessibility conflicts detected (verify during inspection)."
    { score := max 0 (min 100 raw), details := details, flags := flags, suggestions := sugg }
  else
    { score := max 0 (min 100 100)
      details := "No specific accessibility requirements."
      flags := []
      suggestions := [] }

/-! ## Feature Match (src/lib/fit-engine.ts section 4 and helper predicates) -/

/-- The result union of `checkDealbreaker`. -/
inductive DealbreakerStatus
  | violated
  | clear
  | unknown
deriving DecidableEq

/-- Function `checkFeaturePresent`: whether a wanted feature can be confirmed from the
snapshot.  Only single_story, garage, no_hoa, low_hoa, new_construction and
yard are decidable; everything else is unknown. -/
def checkFeaturePresent (feat : PropertyFeature) (snapshot : Option PropertySnapshot)
    (_analysis : AnalysisData) : MatchStatus :=
  match snapshot with
  | Option.none => MatchStatus.unknown
  | Option.some s =>
    match feat with
    | .single_story =>
      match s.stories with
      | Option.some n =>
        if n = 1 then MatchStatus.matched
        else if n ≠ 0 ∧ 1 < n then MatchStatus.missing
        else MatchStatus.unknown
      | Option.none => MatchStatus.unknown
    | .garage =>
      match s.garage with
      | Option.some g =>
        if g ≠ "" ∧ g ≠ "None" then MatchStatus.matched
        else if g = "None" then MatchStatus.missing
        else MatchStatus.unknown
      | Option.none => MatchStatus.unknown
    | .no_hoa =>
      match s.hoa with
      | Option.none => MatchStatus.matched
      | Option.some h =>
        if h = 0 then MatchStatus.matched
        else if 0 < h then MatchStatus.missing
        else MatchStatus.unknown
    | .low_hoa =>
      match s.hoa with
      | Option.some h =>
        if 0 < h ∧ h ≤ 200 then MatchStatus.matched
        else if 200 < h then MatchStatus.missing
        else MatchStatus.unknown
      | Option.none => MatchStatus.unknown
    | .new_construction =>
      match s.yearBuilt with
      | Option.some y =>
        if y ≠ 0 ∧ 2020 ≤ y then MatchStatus.matched
        else if y ≠ 0 then MatchStatus.missing
        else MatchStatus.unknown
      | Option.none => MatchStatus.unknown
    | .yard =>
      match s.lotSqft with
      | Option.some l =>
        if l ≠ 0 ∧ 2000 < l then MatchStatus.matched
        else if l ≠ 0 ∧ l ≤ 2000 then MatchStatus.missing
        else MatchStatus.unknown
      | Option.none => MatchStatus.unknown
    | _ => MatchStatus.unknown

/-- Function `checkDealbreaker`: whether a dealbreaker feature is violated.  Only
no_hoa and single_story are decidable; pool and all others are unknown;
with no snapshot every check is unknown. -/
def checkDealbreaker (feat : PropertyFeature) (snapshot : Option PropertySnapshot)
    (_analysis : AnalysisData) : DealbreakerStatus :=
  match snapshot with
  | Option.none => DealbreakerStatus.unknown
  | Option.some s =>
    match feat with
    | .no_hoa =>
      match s.hoa with
      | Option.some h =>
        if h ≠ 0 ∧ 0 < h then DealbreakerStatus.violated else DealbreakerStatus.clear
      | Option.none => DealbreakerStatus.clear
    | .pool => DealbreakerStatus.unknown
    | .single_story =>
      match s.stories with
      | Option.some n =>
        if n ≠ 0 ∧ 1 < n then DealbreakerStatus.violated else DealbreakerStatus.clear
      | Option.none => DealbreakerStatus.clear
    | _ => DealbreakerStatus.unknown

/-- Matched-list entry produced for a must-have feature. -/
def mustHaveMatchedEntry (snapshot : Option PropertySnapshot) (analysis : AnalysisData)
    (feat : PropertyFeature) : Option FitFeatureMatch :=
  match checkFeaturePresent feat snapshot analysis with
  | MatchStatus.matched =>
    Option.some
      { feature := feat, label := featureName feat, importance := FeatureImportance.must_have
        status := MatchStatus.matched, explanation := "Required feature present." }
  | _ => Option.none

/-- Missed-list entry produced for a must-have feature. -/
def mustHaveMissedEntry (snapshot : Option PropertySnapshot) (analysis : AnalysisData)
    (feat : PropertyFeature) : Option FitFeatureMatch :=
  match checkFeaturePresent feat snapshot analysis with
  | MatchStatus.matched => Option.none
  | MatchStatus.missing =>
    Option.some
      { feature := feat, label := featureName feat, importance := FeatureImportance.must_have
        status := MatchStatus.missing, explanation := "This must-have feature appears to be missing." }
  | _ =>
    Option.some
      { feature := feat, label := featureName feat, importance := FeatureImportance.must_have
        status := MatchStatus.unknown, explanation := "Could not verify — check during visit." }

/-- Score penalty for a must-have feature (missing: 18, unverifiable: 8). -/
def mustHavePenalty (snapshot : Option PropertySnapshot) (analysis : AnalysisData)
    (feat : PropertyFeature) : ℚ :=
  match checkFeaturePresent feat snapshot analysis with
  | MatchStatus.matched => 0
  | MatchStatus.missing => 18
  | _ => 8

/-- Matched-list entry produced for a nice-to-have feature. -/
def niceToHaveMatchedEntry (snapshot : Option PropertySnapshot) (analysis : AnalysisData)
    (feat : PropertyFeature) : Option FitFeatureMatch :=
  match checkFeaturePresent feat snapshot analysis with
  | MatchStatus.matched =>
    Option.some
      { feature := feat, label := featureName feat, importance := FeatureImportance.nice_to_have
        status := MatchStatus.matched, explanation := "Bonus feature present!" }
  | _ => Option.none

/-- Missed-list entry produced for a nice-to-have feature (only when missing). -/
def niceToHaveMissedEntry (snapshot : Option PropertySnapshot) (analysis : AnalysisData)
    (feat : PropertyFeature) : Option FitFeatureMatch :=
  match checkFeaturePresent feat snapshot analysis with
  | MatchStatus.missing =>
    Option.some
      { feature := feat, label := featureName feat, importance := FeatureImportance.nice_to_have
        status := MatchStatus.missing, explanation := "Nice-to-have not present." }
  | _ => Option.none

/-- Score penalty for a nice-to-have feature (missing: 5). -/
def niceToHavePenalty (snapshot : Option PropertySnapshot) (analysis : AnalysisData)
    (feat : PropertyFeature) : ℚ :=
  match checkFeaturePresent feat snapshot analysis with
  | MatchStatus.missing => 5
  | _ => 0

/-- Missed-list entry produced for a dealbreaker feature (only when violated). -/
def dealbreakerEntry (snapshot : Option PropertySnapshot) (analysis : AnalysisData)
    (feat : PropertyFeature) : Option FitFeatureMatch :=
  match checkDealbreaker feat snapshot analysis with
  | DealbreakerStatus.violated =>
    Option.some
      { feature := feat, label := featureName feat, importance := FeatureImportance.dealbreaker
        status := MatchStatus.violated, explanation := "Dealbreaker triggered." }
  | _ => Option.none

/-- Score penalty for a dealbreaker feature (violated: 50). -/
def dealbreakerPenalty (snapshot : Option PropertySnapshot) (analysis : AnalysisData)
    (feat : PropertyFeature) : ℚ :=
  match checkDealbreaker feat snapshot analysis with
  | DealbreakerStatus.violated => 50
  | _ => 0

/-- Result of the Feature Match section. -/
structure FeatureOut where
  score : ℚ
  matched : List FitFeatureMatch
  missed : List FitFeatureMatch
deriving DecidableEq

/-- Feature Match scoring (weight 0.15).  Starts at 100; must-haves cost 18
(missing) or 8 (unknown), nice-to-haves 5 (missing), violated dealbreakers
50; clamped to [0, 100]. -/
def featureFit (profile : BuyerProfile) (snapshot : Option PropertySnapshot)
    (analysis : AnalysisData) : FeatureOut :=
  let matched := profile.mustHaves.filterMap (mustHaveMatchedEntry snapshot analysis)
    ++ profile.niceToHaves.filterMap (niceToHaveMatchedEntry snapshot analysis)
  let missed := profile.mustHaves.filterMap (mustHaveMissedEntry snapshot analysis)
    ++ profile.niceToHaves.filterMap (niceToHaveMissedEntry snapshot analysis)
    ++ profile.dealbreakers.filterMap (dealbreakerEntry snapshot analysis)
  let raw := 100 - (profile.mustHaves.map (mustHavePenalty snapshot analysis)).sum
    - (profile.niceToHaves.map (niceToHavePenalty snapshot analysis)).sum
    - (profile.dealbreakers.map (dealbreakerPenalty snapshot analysis)).sum
  { score := max 0 (min 100 raw), matched := matched, missed := missed }

/-! ## Lifestyle Fit (src/lib/fit-engine.ts section 6) -/

/-- Result of the Lifestyle section. -/
structure LifestyleOut where
  score : ℚ
  suggestions : List PropertySuggestion
deriving DecidableEq

/-- Lifestyle scoring (base 65; situation and household adjustments;
clamped to [0, 100]). -/
def lifestyleFit (profile : BuyerProfile) (snapshot : Option PropertySnapshot) :
    LifestyleOut :=
  let s0 : ℚ := 65
  let s1 :=
    if profile.situation = BuyerSituation.multigenerational ∧
        (match snapshot with
         | Option.some s =>
           match s.beds with
           | Option.some b => b ≠ 0 ∧ 4 ≤ b
           | Option.none => False
         | Option.none => False : Bool) then s0 + 15 else s0
  let s2 :=
    if profile.situation = BuyerSituation.retiring ∧ storiesOf snapshot = Option.some 1
    then s1 + 15 else s1
  let elderly : ℚ × List PropertySuggestion :=
    if HouseholdMember.elderly_parent ∈ profile.householdMembers then
      if (match storiesOf snapshot with
          | Option.some n => n ≠ 0 ∧ 1 < n
          | Option.none => False : Bool) then
        (s2 - 20,
         [ { category := SuggestionCategory.ask_about
             icon := "Users"
             title := "Elderly parent accommodations"
             description := "Verify main-floor bedroom/bathroom and proximity to medical facilities."
             priority := SuggestionPriority.high } ])
      else if storiesOf snapshot = Option.some 1 then (s2 + 10, [])
      else (s2, [])
    else (s2, [])
  let kids : List PropertySuggestion :=
    if HouseholdMember.family_young_kids ∈ profile.householdMembers then
      [ { category := SuggestionCategory.look_for
          icon := "Baby"
          title := "Child safety check"
          description := "Check pool fencing, stair gates, window locks, fenced yard. Verify school district."
          priority := SuggestionPriority.medium } ]
    else []
  { score := max 0 (min 100 elderly.1), suggestions := elderly.2 ++ kids }

/-! ## Composite score and label (src/lib/fit-engine.ts, tail of computeFitScore) -/

/-- The disjunction `hasDealbreaker || hasAccessBlocker`: the hard-cap trigger, computed from
the missed-feature list and the accessibility flags. -/
def fitHardCap (profile : BuyerProfile) (analysis : AnalysisData) : Bool :=
  (featureFit profile analysis.propertySnapshot analysis).missed.any
      (fun f => decide (f.importance = FeatureImportance.dealbreaker) &&
                decide (f.status = MatchStatus.violated)) ||
    (accessFit profile analysis.propertySnapshot analysis.claims).flags.any
      (fun f => decide (f.severity = FlagSeverity.blocker))

/-- The numeric label thresholds (the else-branches of the label chain):
75 great_match, 60 good_match, 40 fair, else poor_match. -/
def scoreLabel (overallScore : ℚ) : FitLabel :=
  if 75 ≤ overallScore then FitLabel.great_match
  else if 60 ≤ overallScore then FitLabel.good_match
  else if 40 ≤ overallScore then FitLabel.fair
  else FitLabel.poor_match

/-- Table `summaryMap`: the fixed summary sentence for each label. -/
def summaryMap : FitLabel → String
  | FitLabel.great_match => "This property is a strong match for your needs and preferences."
  | FitLabel.good_match => "This property is a good fit with a few areas to investigate."
  | FitLabel.fair => "This property partially meets your needs — review the gaps carefully."
  | FitLabel.poor_match => "This property has significant mismatches with your requirements."
  | FitLabel.dealbreaker => "This property triggers one or more dealbreakers or has critical accessibility barriers."

/-- The accessibility category weight: 0.30 with declared needs, else 0.05. -/
def accessWeightOf (profile : BuyerProfile) : ℚ :=
  if hasAccessibilityNeeds profile then 0.30 else 0.05

/-- The six-row breakdown pushed onto `categories` by `computeFitScore`, in
source order; the lifestyle weight is `max 0.05 remainingWeight`. -/
def fitCategories (profile : BuyerProfile) (analysis : AnalysisData) : List FitCategory :=
  let snapshot := analysis.propertySnapshot
  let b := budgetFit profile analysis
  let sz := sizeFit profile snapshot
  let acc := accessFit profile snapshot analysis.claims
  let ft := featureFit profile snapshot analysis
  let ls := lifestyleFit profile snapshot
  let accessWeight := accessWeightOf profile
  let remainingWeight : ℚ := 1 - (0.25 + 0.20 + accessWeight + 0.15 + 0.10)
  [ { name := "Budget Fit", score := b.score, weight := 0.25, details := b.details },
    { name := "Size & Layout", score := sz.score, weight := 0.20, details := sz.details },
    { name := "Accessibility", score := acc.score, weight := accessWeight, details := acc.details },
    { name := "Feature Match", score := ft.score, weight := 0.15,
      details := toString ft.matched.length ++ " matched, " ++ toString ft.missed.length
        ++ " missing or flagged." },
    { name := "Trust & Risk", score := jsRound analysis.trustScore, weight := 0.10,
      details := "Listing trust score is " ++ fmtNum analysis.trustScore ++ "/100." },
    { name := "Lifestyle Fit", score := ls.score, weight := max 0.05 remainingWeight,
      details := "Based on household and lifestyle preferences." } ]

/-- The fold `categories.reduce((sum, c) => sum + c.weight, 0)`. -/
def fitTotalWeight (profile : BuyerProfile) (analysis : AnalysisData) : ℚ :=
  (fitCategories profile analysis).foldl (fun sum c => sum + c.weight) 0

/-- The fold `categories.reduce((sum, c) => sum + c.score * c.weight, 0)`. -/
def fitWeightedSum (profile : BuyerProfile) (analysis : AnalysisData) : ℚ :=
  (fitCategories profile analysis).foldl (fun sum c => sum + c.score * c.weight) 0

/-- The rounded weighted average, before any hard cap. -/
def overallBeforeCaps (profile : BuyerProfile) (analysis : AnalysisData) : ℚ :=
  jsRound (fitWeightedSum profile analysis / fitTotalWeight profile analysis)

/-- The over-stretch-budget caps: >20% over stretch caps at 30, >10% at 40. -/
def applyStretchCap (profile : BuyerProfile) (analysis : AnalysisData) (score : ℚ) : ℚ :=
  match getEffectivePrice analysis with
  | Option.some ep =>
    if profile.budgetStretch < ep then
      let pctOver := ((ep - profile.budgetStretch) / profile.budgetStretch) * 100
      if 20 < pctOver then min score 30
      else if 10 < pctOver then min score 40
      else score
    else score
  | Option.none => score

/-- The final overall score: dealbreaker/blocker cap at 25, then the stretch
caps, then clamping to [0, 100]. -/
def finalOverallScore (profile : BuyerProfile) (analysis : AnalysisData) : ℚ :=
  max 0 (min 100 (applyStretchCap profile analysis
    (if fitHardCap profile analysis
     then min (overallBeforeCaps profile analysis) 25
     else overallBeforeCaps profile analysis)))

/-- The final label: any hard-cap trigger gives dealbreaker, otherwise the
numeric thresholds. -/
def finalLabel (profile : BuyerProfile) (analysis : AnalysisData) : FitLabel :=
  if fitHardCap profile analysis then FitLabel.dealbreaker
  else scoreLabel (finalOverallScore profile analysis)

/-- The pet-policy suggestion pushed at the end of `computeFitScore` when the
buyer has pets and at least one pet type. -/
def petSuggestionList (profile : BuyerProfile) (snapshot : Option PropertySnapshot) :
    List PropertySuggestion :=
  if profile.hasPets ∧ 0 < profile.petTypes.length then
    [ { category := SuggestionCategory.ask_about
        icon := "PawPrint"
        title := "Pet policy check"
        description := "You have " ++ String.intercalate ", " profile.petTypes ++ ". " ++
          (match snapshot with
           | Option.some s =>
             match s.hoa with
             | Option.some h =>
               if h ≠ 0 then "HOA detected — verify pet restrictions."
               else "No HOA, but check CC&Rs."
             | Option.none => "No HOA, but check CC&Rs."
           | Option.none => "No HOA, but check CC&Rs.")
        priority := SuggestionPriority.medium } ]
  else []

/-- Function `computeFitScore` (src/lib/fit-engine.ts): the full Fit Score engine. -/
def computeFitScore (profile : BuyerProfile) (analysis : AnalysisData) : FitScoreResult :=
  { overallScore := finalOverallScore profile analysis
    label := finalLabel profile analysis
    summary := summaryMap (finalLabel profile analysis)
    breakdown := fitCategories profile analysis
    matchedFeatures := (featureFit profile analysis.propertySnapshot analysis).matched
    missedFeatures := (featureFit profile analysis.propertySnapshot analysis).missed
    accessibilityFlags := (accessFit profile analysis.propertySnapshot analysis.claims).flags
    suggestions := (budgetFit profile analysis).suggestions
      ++ (accessFit profile analysis.propertySnapshot analysis.claims).suggestions
      ++ (lifestyleFit profile analysis.propertySnapshot).suggestions
      ++ petSuggestionList profile analysis.propertySnapshot }

/-! ## Trust/claim aggregation (src/app/(main)/results/[id]/page.tsx) -/

/-- One row of the per-category claim summary computed on the results page. -/
structure CategorySummary where
  category : ScoringCategory
  total : Nat
  contradictions : Nat
  unverified : Nat
  verified : Nat
deriving DecidableEq

/-- List `SCORING_CATEGORIES` (src/types/index.ts), in declaration order. -/
def SCORING_CATEGORIES : List ScoringCategory :=
  [ ScoringCategory.record_mismatch,
    ScoringCategory.pricing_anomaly,
    ScoringCategory.ownership_title,
    ScoringCategory.disclosure_ambiguity,
    ScoringCategory.neighborhood_fit,
    ScoringCategory.renovation_permit ]

/-- Function `categorySummary` (results page): iterate the fixed six categories and
count the claims of each by exact verdict. -/
def categorySummary (claims : List Claim) : List CategorySummary :=
  SCORING_CATEGORIES.map fun cat =>
    let catClaims := claims.filter (fun c => decide (c.category = cat))
    { category := cat
      total := catClaims.length
      contradictions := (catClaims.filter (fun c => decide (c.verdict = Verdict.contradiction))).length
      unverified := (catClaims.filter (fun c => decide (c.verdict = Verdict.unverified))).length
      verified := (catClaims.filter (fun c => decide (c.verdict = Verdict.verified))).length }

/-! ## Snapshot merge resolver -/

/-- Modelled from the spec: the repository has no TypeScript merge function —
the per-field combination of the authoritative (external-record) snapshot
with the inferred snapshot is delegated to the LLM by the instructions in
`buildAnalysisPrompt` (src/lib/prompts.ts), so the Snapshot Merge Resolver is
embedded here from the contract in the specification: prefer the
authoritative value per field when non-null, else the inferred value, else
null. -/
def mergeField {α : Type} (authoritative inferred : Option α) : Option α :=
  match authoritative with
  | Option.some v => Option.some v
  | Option.none => inferred

/-- Modelled from the spec: `merge(authoritative, inferred)`: null when both
inputs are null; otherwise each of the 12 snapshot fields is resolved
independently by `mergeField`. -/
def mergeSnapshot : Option PropertySnapshot → Option PropertySnapshot →
    Option PropertySnapshot
  | Option.none, Option.none => Option.none
  | a?, b? =>
    let A := a?.getD
      { beds := Option.none, baths := Option.none, sqft := Option.none,
        lotSqft := Option.none, yearBuilt := Option.none, stories := Option.none,
        garage := Option.none, hoa := Option.none, zoning := Option.none,
        taxAssessedValue := Option.none, lastSaleDate := Option.none,
        lastSalePrice := Option.none }
    let B := b?.getD
      { beds := Option.none, baths := Option.none, sqft := Option.none,
        lotSqft := Option.none, yearBuilt := Option.none, stories := Option.none,
        garage := Option.none, hoa := Option.none, zoning := Option.none,
        taxAssessedValue := Option.none, lastSaleDate := Option.none,
        lastSalePrice := Option.none }
    Option.some
      { beds := mergeField A.beds B.beds
        baths := mergeField A.baths B.baths
        sqft := mergeField A.sqft B.sqft
        lotSqft := mergeField A.lotSqft B.lotSqft
        yearBuilt := mergeField A.yearBuilt B.yearBuilt
        stories := mergeField A.stories B.stories
        garage := mergeField A.garage B.garage
        hoa := mergeField A.hoa B.hoa
        zoning := mergeField A.zoning B.zoning
        taxAssessedValue := mergeField A.taxAssessedValue B.taxAssessedValue
        lastSaleDate := mergeField A.lastSaleDate B.lastSaleDate
        lastSalePrice := mergeField A.lastSalePrice B.lastSalePrice }

/-! ## Concrete inputs used by witnesses and counterexamples -/

/-- A snapshot with every field null. -/
def emptySnapshot : PropertySnapshot :=
  { beds := Option.none, baths := Option.none, sqft := Option.none,
    lotSqft := Option.none, yearBuilt := Option.none, stories := Option.none,
    garage := Option.none, hoa := Option.none, zoning := Option.none,
    taxAssessedValue := Option.none, lastSaleDate := Option.none,
    lastSalePrice := Option.none }

/-- A minimal buyer profile: no needs, no features, budget 100 / stretch 400. -/
def baseProfile : BuyerProfile :=
  { situation := BuyerSituation.first_time
    householdMembers := []
    householdSize := 1
    accessibilityNeeds := [AccessibilityNeed.none]
    accessibilityNotes := ""
    budgetMin := 0
    budgetMax := 100
    budgetStretch := 400
    monthlyPaymentMax := 0
    mustHaves := []
    niceToHaves := []
    dealbreakers := []
    commuteDestination := ""
    commuteMode := CommuteMode.driving
    maxCommuteMinutes := 45
    bedsMin := 0
    bathsMin := 0
    sqftMin := 0
    prioritizeOutdoorSpace := false
    hasPets := false
    petTypes := [] }

/-- A minimal analysis input: no snapshot, no price, trust 80. -/
def baseAnalysis : AnalysisData :=
  { propertySnapshot := Option.none
    marketContext := Option.none
    trustScore := 80
    trustLabel := "high"
    listPrice := Option.none
    claims := []
    actionItems := [] }

/-- A snapshot whose only known field is a $250 monthly HOA. -/
def snapshotHoa250 : PropertySnapshot := { emptySnapshot with hoa := Option.some 250 }

/-- Analysis carrying `snapshotHoa250`, no price. -/
def analysisHoa250 : AnalysisData :=
  { baseAnalysis with propertySnapshot := Option.some snapshotHoa250 }

/-- Profile whose only customization is the dealbreaker `no_hoa`. -/
def profileDealbreakerEx : BuyerProfile :=
  { baseProfile with dealbreakers := [PropertyFeature.no_hoa] }

/-- Profile with the accessibility need `wheelchair_full`. -/
def profileWheelchairEx : BuyerProfile :=
  { baseProfile with accessibilityNeeds := [AccessibilityNeed.wheelchair_full] }

/-- A two-story snapshot. -/
def snapshotTwoStory : PropertySnapshot := { emptySnapshot with stories := Option.some 2 }

/-- Analysis carrying `snapshotTwoStory`. -/
def analysisTwoStory : AnalysisData :=
  { baseAnalysis with propertySnapshot := Option.some snapshotTwoStory }

/-- Analysis with list price 200 (between the baseProfile budget max 100 and stretch 400). -/
def analysisPrice200 : AnalysisData := { baseAnalysis with listPrice := Option.some 200 }

/-- Profile with `hasPets` set but an empty `petTypes` list. -/
def profilePetsNoTypes : BuyerProfile := { baseProfile with hasPets := true }

/-- Profile with `hasPets` and one pet type. -/
def profilePetsCats : BuyerProfile :=
  { baseProfile with hasPets := true, petTypes := ["cats"] }

/-- Profile with negative budget ceilings (well-typed in TS, rejected only by
the Zod validation layer). -/
def profileNegStretch : BuyerProfile :=
  { baseProfile with budgetMax := -2, budgetStretch := -1 }

/-- Analysis with list price 3, used against `profileNegStretch`. -/
def analysisPrice3 : AnalysisData := { baseAnalysis with listPrice := Option.some 3 }

/-- One verified pricing-anomaly claim. -/
def claimPricingVerified : Claim :=
  { category := ScoringCategory.pricing_anomaly
    statement := "Priced above recent comparable sales"
    source := ClaimSource.listing
    verdict := Verdict.verified
    confidence := 0.9
    explanation := ""
    severity := Severity.info
    evidence := [] }

/-! ## General lemmas -/

theorem jsRound_ge_int (n : ℤ) (x : ℚ) (h : (n : ℚ) ≤ x + 1/2) : (n : ℚ) ≤ jsRound x := by
  rw [jsRound_eq_floor]
  exact_mod_cast Int.le_floor.mpr h

theorem jsRound_le_int (n : ℤ) (x : ℚ) (h : x + 1/2 < (n : ℚ) + 1) : jsRound x ≤ (n : ℚ) := by
  rw [jsRound_eq_floor]
  have : ⌊x + 1/2⌋ < n + 1 := Int.floor_lt.mpr (by exact_mod_cast h)
  exact_mod_cast Int.lt_add_one_iff.mp this

theorem jsRound_nonneg (x : ℚ) (h : 0 ≤ x) : 0 ≤ jsRound x := by
  have := jsRound_ge_int 0 x (by push_cast; linarith)
  simpa using this

theorem jsRound_zero : jsRound 0 = 0 := by
  have h0 : (0 : ℚ) ≤ jsRound 0 := jsRound_nonneg 0 le_rfl
  have h1 : jsRound 0 ≤ (0 : ℚ) := jsRound_le_int 0 0 (by norm_num)
  linarith

theorem clamp_bounds (x : ℚ) : 0 ≤ max 0 (min 100 x) ∧ max 0 (min 100 x) ≤ 100 :=
  ⟨le_max_left _ _, max_le (by norm_num) (min_le_left _ _)⟩

theorem clamp_le_of_le (x c : ℚ) (hx : x ≤ c) (hc : 0 ≤ c) : max 0 (min 100 x) ≤ c :=
  max_le hc (le_trans (min_le_right _ _) hx)

theorem firstPositive_pos : ∀ (l : List (Option ℚ)) (x : ℚ),
    firstPositive l = Option.some x → 0 < x := by
  intro l
  induction l with
  | nil => intro x h; simp [firstPositive] at h
  | cons o rest ih =>
    intro x h
    match o with
    | Option.none => exact ih x h
    | Option.some v =>
      rw [firstPositive] at h
      by_cases hv : 0 < v
      · rw [if_pos hv] at h
        cases h
        exact hv
      · rw [if_neg hv] at h
        exact ih x h

/-- Lemma: `getEffectivePrice` agrees with the spec-side priority resolution. -/
theorem getEffectivePrice_eq_spec (a : AnalysisData) :
    getEffectivePrice a = effectivePriceSpec a := by
  unfold getEffectivePrice effectivePriceSpec
  cases hlp : a.listPrice with
  | none =>
    cases hsnap : a.propertySnapshot with
    | none => simp [firstPositive]
    | some snap =>
      cases htav : snap.taxAssessedValue with
      | none =>
        cases hlsp : snap.lastSalePrice <;>
          simp [firstPositive, Option.bind, htav, hlsp]
      | some tav =>
        by_cases h : 0 < tav
        · simp [firstPositive, Option.bind, htav, h]
        · cases hlsp : snap.lastSalePrice <;>
            simp [firstPositive, Option.bind, htav, hlsp, h]
  | some lp =>
    by_cases hp : 0 < lp
    · simp [firstPositive, hp]
    · cases hsnap : a.propertySnapshot with
      | none => simp [firstPositive, hp]
      | some snap =>
        cases htav : snap.taxAssessedValue with
        | none =>
          cases hlsp : snap.lastSalePrice <;>
            simp [firstPositive, Option.bind, htav, hlsp, hp]
        | some tav =>
          by_cases h : 0 < tav
          · simp [firstPositive, Option.bind, htav, hp, h]
          · cases hlsp : snap.lastSalePrice <;>
              simp [firstPositive, Option.bind, htav, hlsp, hp, h]

theorem getEffectivePrice_pos (a : AnalysisData) (x : ℚ)
    (h : getEffectivePrice a = Option.some x) : 0 < x := by
  rw [getEffectivePrice_eq_spec] at h
  exact firstPositive_pos _ x h

theorem applyStretchCap_le (p : BuyerProfile) (a : AnalysisData) (x : ℚ) :
    applyStretchCap p a x ≤ x := by
  unfold applyStretchCap
  split
  · dsimp only
    split_ifs <;> first | exact min_le_left _ _ | exact le_rfl
  · exact le_rfl

/-- Any hard-cap trigger forces the 25-point cap and the dealbreaker label. -/
theorem hardCap_consequences (p : BuyerProfile) (a : AnalysisData)
    (h : fitHardCap p a = true) :
    (computeFitScore p a).overallScore ≤ 25 ∧
      (computeFitScore p a).label = FitLabel.dealbreaker := by
  constructor
  · show finalOverallScore p a ≤ 25
    unfold finalOverallScore
    rw [h]
    simp only [if_pos rfl]
    refine clamp_le_of_le _ _ ?_ (by norm_num)
    exact le_trans (applyStretchCap_le p a _) (min_le_right _ _)
  · show finalLabel p a = FitLabel.dealbreaker
    unfold finalLabel
    rw [h]
    simp

/-- With no hard-cap trigger the label comes from the numeric thresholds. -/
theorem label_of_no_hardCap (p : BuyerProfile) (a : AnalysisData)
    (h : fitHardCap p a = false) :
    (computeFitScore p a).label = scoreLabel ((computeFitScore p a).overallScore) := by
  show finalLabel p a = scoreLabel (finalOverallScore p a)
  unfold finalLabel
  rw [h]
  simp

theorem scoreLabel_ne_dealbreaker (x : ℚ) : scoreLabel x ≠ FitLabel.dealbreaker := by
  unfold scoreLabel
  split_ifs <;> simp

/-! ## Claim C1 -/

/-- C1: for every profile and analysis input, if `computeFitScore` records at
least one dealbreaker feature with status violated or at least one
accessibility flag with severity blocker, then the returned overallScore is
at most 25 and the returned label is dealbreaker, regardless of how high the
six category scores are. -/
theorem C1_hard_cap_monotonicity (p : BuyerProfile) (a : AnalysisData)
    (h : (∃ f ∈ (computeFitScore p a).missedFeatures,
            f.importance = FeatureImportance.dealbreaker ∧ f.status = MatchStatus.violated) ∨
         (∃ f ∈ (computeFitScore p a).accessibilityFlags,
            f.severity = FlagSeverity.blocker)) :
    (computeFitScore p a).overallScore ≤ 25 ∧
      (computeFitScore p a).label = FitLabel.dealbreaker := by
  apply hardCap_consequences
  unfold fitHardCap
  apply Bool.or_eq_true_iff.mpr
  rcases h with ⟨f, hf, h1, h2⟩ | ⟨f, hf, h1⟩
  · exact Or.inl (List.any_eq_true.mpr ⟨f, hf, by simp [h1, h2]⟩)
  · exact Or.inr (List.any_eq_true.mpr ⟨f, hf, by simp [h1]⟩)

/-- Witness for C1: a buyer with the `no_hoa` dealbreaker against a property
with a $250 HOA. -/
theorem C1_hard_cap_monotonicity_witness :
    ((∃ f ∈ (computeFitScore profileDealbreakerEx analysisHoa250).missedFeatures,
        f.importance = FeatureImportance.dealbreaker ∧ f.status = MatchStatus.violated) ∨
     (∃ f ∈ (computeFitScore profileDealbreakerEx analysisHoa250).accessibilityFlags,
        f.severity = FlagSeverity.blocker)) ∧
    (computeFitScore profileDealbreakerEx analysisHoa250).overallScore ≤ 25 ∧
      (computeFitScore profileDealbreakerEx analysisHoa250).label = FitLabel.dealbreaker := by
  have h : (∃ f ∈ (computeFitScore profileDealbreakerEx analysisHoa250).missedFeatures,
        f.importance = FeatureImportance.dealbreaker ∧ f.status = MatchStatus.violated) ∨
     (∃ f ∈ (computeFitScore profileDealbreakerEx analysisHoa250).accessibilityFlags,
        f.severity = FlagSeverity.blocker) := by
    with_unfolding_all decide
  exact ⟨h, C1_hard_cap_monotonicity profileDealbreakerEx analysisHoa250 h⟩

/-! ## Claim C2 -/

/-- C2 (amended): the breakdown weights are 0.25, 0.20, accessibility
weight, 0.15, 0.10 and `max 0.05 (1 - rest)`; the accessibility weight is
0.30 with a declared non-`none` need and 0.05 otherwise; the weights sum to
1.05 with a declared need and to exactly 1 otherwise (the lifestyle weight
absorbs the remainder only when the remainder is at least the 0.05 floor). -/
theorem C2_weight_normalization_amended (p : BuyerProfile) (a : AnalysisData) :
    ((computeFitScore p a).breakdown.map FitCategory.weight) =
      [0.25, 0.20, accessWeightOf p, 0.15, 0.10,
        max 0.05 (1 - (0.25 + 0.20 + accessWeightOf p + 0.15 + 0.10))] ∧
    accessWeightOf p = (if hasAccessibilityNeeds p then (0.30 : ℚ) else 0.05) ∧
    (((computeFitScore p a).breakdown.map FitCategory.weight).sum =
      if hasAccessibilityNeeds p then (21/20 : ℚ) else 1) := by
  have hb : (computeFitScore p a).breakdown = fitCategories p a := rfl
  rw [hb]
  unfold fitCategories accessWeightOf
  cases h : hasAccessibilityNeeds p <;>
    simp [h] <;> norm_num [max_def]

/-- Counterexample to C2 as stated: with a wheelchair_full need the six
weights sum to 1.05, not 1, and the lifestyle weight is the 0.05 floor, not
the exact remainder (which is 0). -/
theorem C2_weight_sum_counterexample :
    hasAccessibilityNeeds profileWheelchairEx = true ∧
    (((computeFitScore profileWheelchairEx baseAnalysis).breakdown.map
        FitCategory.weight).sum = 21/20) ∧
    ((21/20 : ℚ) ≠ 1) ∧
    (((computeFitScore profileWheelchairEx baseAnalysis).breakdown.map
        FitCategory.weight).getLast? = Option.some (1/20)) ∧
    ((1/20 : ℚ) ≠ 1 - (1/4 + 1/5 + 3/10 + 3/20 + 1/10)) := by
  with_unfolding_all decide

/-! ## Claim C3 -/

theorem breakdown_budget_head (p : BuyerProfile) (a : AnalysisData) :
    ((computeFitScore p a).breakdown.map (fun c => (c.name, c.score))).head? =
      Option.some ("Budget Fit", (budgetFit p a).score) := rfl

theorem budgetFit_score_within (p : BuyerProfile) (a : AnalysisData) (price : ℚ)
    (hp : getEffectivePrice a = Option.some price) (h1 : price ≤ p.budgetMax) :
    (budgetFit p a).score = 100 := by
  unfold budgetFit
  rw [hp]
  simp [h1]

theorem budgetFit_stretch (p : BuyerProfile) (a : AnalysisData) (price : ℚ)
    (hp : getEffectivePrice a = Option.some price)
    (h1 : ¬ price ≤ p.budgetMax) (h2 : price ≤ p.budgetStretch) :
    (budgetFit p a).score =
      jsRound (60 - ((price - p.budgetMax) / (p.budgetStretch - p.budgetMax)) * 40) ∧
    ∃ s ∈ (budgetFit p a).suggestions,
      s.category = SuggestionCategory.watch_out ∧ s.priority = SuggestionPriority.high := by
  unfold budgetFit
  rw [hp]
  simp only [if_neg h1, if_pos h2]
  exact ⟨trivial, ⟨_, List.mem_singleton_self _, rfl, rfl⟩⟩

theorem budgetFit_over (p : BuyerProfile) (a : AnalysisData) (price : ℚ)
    (hp : getEffectivePrice a = Option.some price)
    (h1 : ¬ price ≤ p.budgetMax) (h2 : ¬ price ≤ p.budgetStretch) :
    (budgetFit p a).score =
      max 0 (15 - jsRound ((((price - p.budgetStretch) / p.budgetStretch) * 100) / 2)) ∧
    ∃ s ∈ (budgetFit p a).suggestions,
      s.category = SuggestionCategory.watch_out ∧ s.priority = SuggestionPriority.high := by
  unfold budgetFit
  rw [hp]
  simp only [if_neg h1, if_neg h2]
  exact ⟨trivial, ⟨_, List.mem_singleton_self _, rfl, rfl⟩⟩

/-- C3 (amended): with a resolved effective price, the Budget Fit score is
100 when within budget; `Math.round(60 - (overBy/stretchRange)*40)` plus an
emitted watch_out suggestion when within stretch; and
`max(0, 15 - Math.round(pctOver/2))` plus an emitted high-priority suggestion
when over stretch (the source rounds both interpolation formulas). -/
theorem C3_budget_branches_amended (p : BuyerProfile) (a : AnalysisData) (price : ℚ)
    (hp : getEffectivePrice a = Option.some price)
    (hbm : p.budgetMax ≤ p.budgetStretch) :
    (price ≤ p.budgetMax →
      ((computeFitScore p a).breakdown.map (fun c => (c.name, c.score))).head? =
        Option.some ("Budget Fit", 100)) ∧
    (p.budgetMax < price → price ≤ p.budgetStretch →
      ((computeFitScore p a).breakdown.map (fun c => (c.name, c.score))).head? =
        Option.some ("Budget Fit",
          jsRound (60 - ((price - p.budgetMax) / (p.budgetStretch - p.budgetMax)) * 40)) ∧
      ∃ s ∈ (computeFitScore p a).suggestions,
        s.category = SuggestionCategory.watch_out) ∧
    (p.budgetStretch < price →
      ((computeFitScore p a).breakdown.map (fun c => (c.name, c.score))).head? =
        Option.some ("Budget Fit",
          max 0 (15 - jsRound ((((price - p.budgetStretch) / p.budgetStretch) * 100) / 2))) ∧
      ∃ s ∈ (computeFitScore p a).suggestions,
        s.priority = SuggestionPriority.high) := by
  refine ⟨fun h1 => ?_, fun h1 h2 => ?_, fun h3 => ?_⟩
  · rw [breakdown_budget_head, budgetFit_score_within p a price hp h1]
  · obtain ⟨hs, s, hmem, hcat, _⟩ :=
      budgetFit_stretch p a price hp (not_le.mpr h1) h2
    refine ⟨by rw [breakdown_budget_head, hs], ⟨s, ?_, hcat⟩⟩
    exact List.mem_append_left _ (List.mem_append_left _ (List.mem_append_left _ hmem))
  · have h1 : ¬ price ≤ p.budgetMax := not_le.mpr (lt_of_le_of_lt hbm h3)
    have h2 : ¬ price ≤ p.budgetStretch := not_le.mpr h3
    obtain ⟨hs, s, hmem, _, hpri⟩ := budgetFit_over p a price hp h1 h2
    refine ⟨by rw [breakdown_budget_head, hs], ⟨s, ?_, hpri⟩⟩
    exact List.mem_append_left _ (List.mem_append_left _ (List.mem_append_left _ hmem))

/-- Witness for C3 (amended): list price 200 against the base profile
(budgetMax 100, budgetStretch 400) lands in the stretch branch with score
`jsRound(60 - (100/300)*40) = 47` and a watch_out suggestion. -/
theorem C3_budget_branches_amended_witness :
    getEffectivePrice analysisPrice200 = Option.some 200 ∧
    baseProfile.budgetMax ≤ baseProfile.budgetStretch ∧
    (((computeFitScore baseProfile analysisPrice200).breakdown.map
        (fun c => (c.name, c.score))).head? =
      Option.some ("Budget Fit",
        jsRound (60 - ((200 - baseProfile.budgetMax) /
          (baseProfile.budgetStretch - baseProfile.budgetMax)) * 40)) ∧
     ∃ s ∈ (computeFitScore baseProfile analysisPrice200).suggestions,
       s.category = SuggestionCategory.watch_out) := by
  have hp : getEffectivePrice analysisPrice200 = Option.some 200 := by
    with_unfolding_all decide
  have hbm : baseProfile.budgetMax ≤ baseProfile.budgetStretch := by
    with_unfolding_all decide
  refine ⟨hp, hbm,
    (C3_budget_branches_amended baseProfile analysisPrice200 200 hp hbm).2.1 ?_ ?_⟩
  · with_unfolding_all decide
  · with_unfolding_all decide

/-- Counterexample to C3 as stated: at list price 200 with budgetMax 100 and
budgetStretch 400 the Budget Fit score is the rounded value 47, whereas the
unrounded claim formula gives 60 - (100/300)*40 = 140/3 ≠ 47. -/
theorem C3_exact_formula_counterexample :
    getEffectivePrice analysisPrice200 = Option.some 200 ∧
    baseProfile.budgetMax < 200 ∧ (200 : ℚ) ≤ baseProfile.budgetStretch ∧
    (((computeFitScore baseProfile analysisPrice200).breakdown.map
        (fun c => (c.name, c.score))).head? = Option.some ("Budget Fit", 47)) ∧
    ((47 : ℚ) ≠ 60 - (((200 : ℚ) - baseProfile.budgetMax) /
      (baseProfile.budgetStretch - baseProfile.budgetMax)) * 40) := by
  with_unfolding_all decide

/-! ## Claim C4 -/

/-- C4: effective price resolution follows the fixed priority order listing
price, tax-assessed value, last sale price, taking the first non-null
positive value; and when no candidate resolves, the Budget Fit score is
exactly 40 and its details mention "No price data available." -/
theorem C4_effective_price_priority :
    (∀ a : AnalysisData, getEffectivePrice a = effectivePriceSpec a) ∧
    (∀ (p : BuyerProfile) (a : AnalysisData), getEffectivePrice a = Option.none →
      ((computeFitScore p a).breakdown.map (fun c => (c.name, c.score))).head? =
        Option.some ("Budget Fit", 40) ∧
      ∃ c, (computeFitScore p a).breakdown.head? = Option.some c ∧
        strContainsSub c.details "No price data available." = true) := by
  refine ⟨getEffectivePrice_eq_spec, fun p a h => ?_⟩
  have h40 : (budgetFit p a).score = 40 := by
    unfold budgetFit
    rw [h]
  have hd : (budgetFit p a).details =
      "No price data available. Cannot evaluate budget fit." := by
    unfold budgetFit
    rw [h]
  refine ⟨by rw [breakdown_budget_head, h40], ?_⟩
  refine ⟨{ name := "Budget Fit", score := (budgetFit p a).score, weight := 0.25,
            details := (budgetFit p a).details }, rfl, ?_⟩
  have hc : strContainsSub "No price data available. Cannot evaluate budget fit."
      "No price data available." = true := by decide
  rw [hd]
  exact hc

/-- Witness for C4: the base analysis has no price candidate at all. -/
theorem C4_effective_price_priority_witness :
    getEffectivePrice baseAnalysis = effectivePriceSpec baseAnalysis ∧
    getEffectivePrice baseAnalysis = Option.none ∧
    (((computeFitScore baseProfile baseAnalysis).breakdown.map
        (fun c => (c.name, c.score))).head? = Option.some ("Budget Fit", 40) ∧
     ∃ c, (computeFitScore baseProfile baseAnalysis).breakdown.head? = Option.some c ∧
       strContainsSub c.details "No price data available." = true) := by
  have h : getEffectivePrice baseAnalysis = Option.none := by
    with_unfolding_all decide
  exact ⟨C4_effective_price_priority.1 baseAnalysis, h,
    C4_effective_price_priority.2 baseProfile baseAnalysis h⟩

/-! ## Claim C5 -/

theorem hasAccessibilityNeeds_of_mem (p : BuyerProfile) (n : AccessibilityNeed)
    (hn : n ∈ p.accessibilityNeeds) (hne : n ≠ AccessibilityNeed.none) :
    hasAccessibilityNeeds p = true := by
  unfold hasAccessibilityNeeds
  apply decide_eq_true
  apply List.length_pos.mpr
  exact List.ne_nil_of_mem (List.mem_filter.mpr ⟨hn, decide_eq_true hne⟩)

theorem accessFit_blocker (p : BuyerProfile) (s : PropertySnapshot) (claims : List Claim)
    (hmem : AccessibilityNeed.wheelchair_full ∈ p.accessibilityNeeds)
    (hst : s.stories = Option.some 2) :
    ∃ f ∈ (accessFit p (Option.some s) claims).flags,
      f.severity = FlagSeverity.blocker := by
  have hneeds := hasAccessibilityNeeds_of_mem p _ hmem (by decide)
  unfold accessFit
  rw [hneeds]
  rw [if_pos rfl]
  dsimp only
  have hlist : (needDelta (Option.some s) claims AccessibilityNeed.wheelchair_full).2.1 ∈
      (p.accessibilityNeeds.map (needDelta (Option.some s) claims)).map (fun d => d.2.1) :=
    List.mem_map_of_mem _ (List.mem_map_of_mem _ hmem)
  have hflag : ∃ f ∈ (needDelta (Option.some s) claims AccessibilityNeed.wheelchair_full).2.1,
      f.severity = FlagSeverity.blocker := by
    simp [needDelta, stairsDelta, sensoryDelta, respiratoryDelta, agingDelta,
      storiesOf, hst, wheelOrFatigue]
  obtain ⟨f, hf, hsev⟩ := hflag
  exact ⟨f, List.mem_flatten.mpr ⟨_, hlist, hf⟩, hsev⟩

/-- C5: for every profile whose accessibility needs contain wheelchair_full
and every analysis whose snapshot has stories = 2, the result contains an
accessibility flag with severity blocker, the overall score is at most 25,
and the label is dealbreaker. -/
theorem C5_wheelchair_blocker_scenario (p : BuyerProfile) (a : AnalysisData)
    (s : PropertySnapshot)
    (hsnap : a.propertySnapshot = Option.some s)
    (hmem : AccessibilityNeed.wheelchair_full ∈ p.accessibilityNeeds)
    (hst : s.stories = Option.some 2) :
    (∃ f ∈ (computeFitScore p a).accessibilityFlags,
        f.severity = FlagSeverity.blocker) ∧
    (computeFitScore p a).overallScore ≤ 25 ∧
    (computeFitScore p a).label = FitLabel.dealbreaker := by
  have hb : ∃ f ∈ (accessFit p a.propertySnapshot a.claims).flags,
      f.severity = FlagSeverity.blocker := by
    rw [hsnap]
    exact accessFit_blocker p s a.claims hmem hst
  have hcap : fitHardCap p a = true := by
    unfold fitHardCap
    apply Bool.or_eq_true_iff.mpr
    right
    obtain ⟨f, hf, h1⟩ := hb
    exact List.any_eq_true.mpr ⟨f, hf, by simp [h1]⟩
  obtain ⟨hle, hlab⟩ := hardCap_consequences p a hcap
  exact ⟨hb, hle, hlab⟩

/-- Witness for C5: a wheelchair_full profile against a two-story snapshot. -/
theorem C5_wheelchair_blocker_scenario_witness :
    analysisTwoStory.propertySnapshot = Option.some snapshotTwoStory ∧
    AccessibilityNeed.wheelchair_full ∈ profileWheelchairEx.accessibilityNeeds ∧
    snapshotTwoStory.stories = Option.some 2 ∧
    ((∃ f ∈ (computeFitScore profileWheelchairEx analysisTwoStory).accessibilityFlags,
        f.severity = FlagSeverity.blocker) ∧
     (computeFitScore profileWheelchairEx analysisTwoStory).overallScore ≤ 25 ∧
     (computeFitScore profileWheelchairEx analysisTwoStory).label = FitLabel.dealbreaker) := by
  refine ⟨rfl, by decide, by decide,
    C5_wheelchair_blocker_scenario profileWheelchairEx analysisTwoStory snapshotTwoStory
      rfl (by decide) (by decide)⟩

/-! ## Claim C6 -/

theorem filter_category_verdict (claims : List Claim) (cat : ScoringCategory) (v : Verdict) :
    (claims.filter (fun c => decide (c.category = cat))).filter
        (fun c => decide (c.verdict = v)) =
      claims.filter (fun c => decide (c.category = cat ∧ c.verdict = v)) := by
  rw [List.filter_filter]
  congr 1
  funext c
  by_cases h1 : c.category = cat <;> by_cases h2 : c.verdict = v <;> simp [h1, h2]

/-- C6: for every claims list the category summary has exactly 6 entries,
one per fixed scoring category in enumeration order, whose counts partition
the category claims by exact verdict; the empty list yields all-zero rows. -/
theorem C6_category_completeness :
    (∀ claims : List Claim,
      (categorySummary claims).length = 6 ∧
      (categorySummary claims).map CategorySummary.category = SCORING_CATEGORIES ∧
      categorySummary claims = SCORING_CATEGORIES.map (fun cat =>
        { category := cat
          total := (claims.filter (fun c => decide (c.category = cat))).length
          contradictions := (claims.filter
            (fun c => decide (c.category = cat ∧ c.verdict = Verdict.contradiction))).length
          unverified := (claims.filter
            (fun c => decide (c.category = cat ∧ c.verdict = Verdict.unverified))).length
          verified := (claims.filter
            (fun c => decide (c.category = cat ∧ c.verdict = Verdict.verified))).length })) ∧
    categorySummary [] =
      [ { category := ScoringCategory.record_mismatch, total := 0, contradictions := 0,
          unverified := 0, verified := 0 },
        { category := ScoringCategory.pricing_anomaly, total := 0, contradictions := 0,
          unverified := 0, verified := 0 },
        { category := ScoringCategory.ownership_title, total := 0, contradictions := 0,
          unverified := 0, verified := 0 },
        { category := ScoringCategory.disclosure_ambiguity, total := 0, contradictions := 0,
          unverified := 0, verified := 0 },
        { category := ScoringCategory.neighborhood_fit, total := 0, contradictions := 0,
          unverified := 0, verified := 0 },
        { category := ScoringCategory.renovation_permit, total := 0, contradictions := 0,
          unverified := 0, verified := 0 } ] := by
  refine ⟨fun claims => ⟨?_, ?_, ?_⟩, by decide⟩
  · simp [categorySummary, SCORING_CATEGORIES]
  · simp [categorySummary, SCORING_CATEGORIES]
  · unfold categorySummary
    apply List.map_congr_left
    intro cat _
    dsimp only
    rw [filter_category_verdict, filter_category_verdict, filter_category_verdict]

/-! ## Claim C7 -/

/-- C7 (spec-modelled): the snapshot merge selects each of the 12 fields
independently — the authoritative value when non-null, otherwise the
inferred value, otherwise null — and on A = beds 3, baths null versus
B = beds 2, baths 2 yields beds 3 and baths 2. -/
theorem C7_merge_priority :
    (∀ A B : PropertySnapshot, mergeSnapshot (Option.some A) (Option.some B) =
      Option.some
        { beds := mergeField A.beds B.beds
          baths := mergeField A.baths B.baths
          sqft := mergeField A.sqft B.sqft
          lotSqft := mergeField A.lotSqft B.lotSqft
          yearBuilt := mergeField A.yearBuilt B.yearBuilt
          stories := mergeField A.stories B.stories
          garage := mergeField A.garage B.garage
          hoa := mergeField A.hoa B.hoa
          zoning := mergeField A.zoning B.zoning
          taxAssessedValue := mergeField A.taxAssessedValue B.taxAssessedValue
          lastSaleDate := mergeField A.lastSaleDate B.lastSaleDate
          lastSalePrice := mergeField A.lastSalePrice B.lastSalePrice }) ∧
    (∀ (α : Type) (v : α) (b : Option α), mergeField (Option.some v) b = Option.some v) ∧
    (∀ (α : Type) (b : Option α), mergeField Option.none b = b) ∧
    mergeSnapshot Option.none Option.none = Option.none ∧
    ((mergeSnapshot
        (Option.some { emptySnapshot with beds := Option.some 3 })
        (Option.some { emptySnapshot with beds := Option.some 2, baths := Option.some 2 })).map
      (fun s => (s.beds, s.baths)) = Option.some (Option.some 3, Option.some 2)) :=
  ⟨fun _ _ => rfl, fun _ _ _ => rfl, fun _ _ => rfl, rfl, rfl⟩

/-! ## Claim C8 -/

/-- C8 (amended): whenever the buyer has pets and lists at least one pet
type, the suggestions always contain the ask_about pet-policy suggestion —
independent of the computed score and of whether the snapshot shows an HOA
(the HOA only changes the suggestion wording). -/
theorem C8_pet_suggestion_amended (p : BuyerProfile) (a : AnalysisData)
    (hpets : p.hasPets = true) (htypes : p.petTypes ≠ []) :
    ∃ s ∈ (computeFitScore p a).suggestions,
      s.category = SuggestionCategory.ask_about ∧ s.title = "Pet policy check" := by
  have hcond : p.hasPets ∧ 0 < p.petTypes.length :=
    ⟨hpets, List.length_pos.mpr htypes⟩
  have hpet : ∃ s ∈ petSuggestionList p a.propertySnapshot,
      s.category = SuggestionCategory.ask_about ∧ s.title = "Pet policy check" := by
    unfold petSuggestionList
    rw [if_pos hcond]
    exact ⟨_, List.mem_singleton_self _, rfl, rfl⟩
  obtain ⟨s, hmem, h1, h2⟩ := hpet
  exact ⟨s, List.mem_append_right _ hmem, h1, h2⟩

/-- Witness for C8 (amended): a cat owner against the HOA property. -/
theorem C8_pet_suggestion_amended_witness :
    profilePetsCats.hasPets = true ∧ profilePetsCats.petTypes ≠ [] ∧
    ∃ s ∈ (computeFitScore profilePetsCats analysisHoa250).suggestions,
      s.category = SuggestionCategory.ask_about ∧ s.title = "Pet policy check" :=
  ⟨rfl, by decide,
    C8_pet_suggestion_amended profilePetsCats analysisHoa250 rfl (by decide)⟩

/-- Counterexample to C8 as stated: hasPets with an empty petTypes list and
an HOA of 250 produces no suggestions at all, hence no pet-policy
suggestion, although the claim hypotheses (buyer has pets, snapshot shows an
HOA) hold. -/
theorem C8_hoa_without_pettypes_counterexample :
    profilePetsNoTypes.hasPets = true ∧
    (analysisHoa250.propertySnapshot.map PropertySnapshot.hoa) =
      Option.some (Option.some 250) ∧
    (computeFitScore profilePetsNoTypes analysisHoa250).suggestions = [] ∧
    ¬ ∃ s ∈ (computeFitScore profilePetsNoTypes analysisHoa250).suggestions,
        s.category = SuggestionCategory.ask_about ∧ s.title = "Pet policy check" := by
  with_unfolding_all decide

/-! ## Claim C9 -/

theorem sizeFit_bounds (p : BuyerProfile) (snap : Option PropertySnapshot) :
    0 ≤ (sizeFit p snap).score ∧ (sizeFit p snap).score ≤ 100 := by
  unfold sizeFit
  exact clamp_bounds _

theorem accessFit_bounds (p : BuyerProfile) (snap : Option PropertySnapshot)
    (claims : List Claim) :
    0 ≤ (accessFit p snap claims).score ∧ (accessFit p snap claims).score ≤ 100 := by
  unfold accessFit
  split_ifs <;> exact clamp_bounds _

theorem featureFit_bounds (p : BuyerProfile) (snap : Option PropertySnapshot)
    (a : AnalysisData) :
    0 ≤ (featureFit p snap a).score ∧ (featureFit p snap a).score ≤ 100 := by
  unfold featureFit
  exact clamp_bounds _

theorem lifestyleFit_bounds (p : BuyerProfile) (snap : Option PropertySnapshot) :
    0 ≤ (lifestyleFit p snap).score ∧ (lifestyleFit p snap).score ≤ 100 := by
  unfold lifestyleFit
  exact clamp_bounds _

theorem budgetFit_bounds (p : BuyerProfile) (a : AnalysisData)
    (hs : 0 ≤ p.budgetStretch) :
    0 ≤ (budgetFit p a).score ∧ (budgetFit p a).score ≤ 100 := by
  unfold budgetFit
  cases hep : getEffectivePrice a with
  | none => norm_num
  | some price =>
    have hpos : 0 < price := getEffectivePrice_pos a price hep
    dsimp only
    by_cases h1 : price ≤ p.budgetMax
    · rw [if_pos h1]
      norm_num
    · rw [if_neg h1]
      by_cases h2 : price ≤ p.budgetStretch
      · rw [if_pos h2]
        dsimp only
        have hbm : p.budgetMax < price := not_le.mp h1
        have hrange : 0 < p.budgetStretch - p.budgetMax := by linarith
        have hr1 : (price - p.budgetMax) / (p.budgetStretch - p.budgetMax) ≤ 1 :=
          (div_le_one hrange).mpr (by linarith)
        have hr0 : 0 < (price - p.budgetMax) / (p.budgetStretch - p.budgetMax) :=
          div_pos (by linarith) hrange
        constructor
        · have h20 := jsRound_ge_int 20
            (60 - (price - p.budgetMax) / (p.budgetStretch - p.budgetMax) * 40)
            (by push_cast; linarith)
          have : (20 : ℚ) ≤ jsRound
              (60 - (price - p.budgetMax) / (p.budgetStretch - p.budgetMax) * 40) := by
            exact_mod_cast h20
          linarith
        · have h60 := jsRound_le_int 60
            (60 - (price - p.budgetMax) / (p.budgetStretch - p.budgetMax) * 40)
            (by push_cast; linarith)
          have : jsRound
              (60 - (price - p.budgetMax) / (p.budgetStretch - p.budgetMax) * 40) ≤ (60 : ℚ) := by
            exact_mod_cast h60
          linarith
      · rw [if_neg h2]
        dsimp only
        refine ⟨le_max_left _ _, ?_⟩
        rcases eq_or_lt_of_le hs with hs0 | hs0
        · have hz : (price - p.budgetStretch) / p.budgetStretch * 100 / 2 = 0 := by
            rw [← hs0]
            simp
          rw [hz, jsRound_zero]
          norm_num
        · have hov : 0 < price - p.budgetStretch := by
            have := not_le.mp h2
            linarith
          have hpct : 0 ≤ (price - p.budgetStretch) / p.budgetStretch * 100 / 2 := by
            positivity
          have h0 := jsRound_nonneg _ hpct
          have hle : max 0 (15 - jsRound ((price - p.budgetStretch) / p.budgetStretch * 100 / 2)) ≤ 15 :=
            max_le (by norm_num) (by linarith)
          linarith

/-- C9 (amended): for every input whose trust score lies in [0, 100] and
whose profile has a nonnegative budgetStretch, the overall score and every
category score lie in [0, 100] (integrality of the trust score is not
needed; a negative budgetStretch breaks the bound, see the counterexample). -/
theorem C9_score_bounds_amended (p : BuyerProfile) (a : AnalysisData)
    (htrust0 : 0 ≤ a.trustScore) (htrust1 : a.trustScore ≤ 100)
    (hstretch : 0 ≤ p.budgetStretch) :
    (0 ≤ (computeFitScore p a).overallScore ∧ (computeFitScore p a).overallScore ≤ 100) ∧
    ∀ c ∈ (computeFitScore p a).breakdown, 0 ≤ c.score ∧ c.score ≤ 100 := by
  constructor
  · show 0 ≤ finalOverallScore p a ∧ finalOverallScore p a ≤ 100
    unfold finalOverallScore
    exact clamp_bounds _
  · intro c hc
    have hb : (computeFitScore p a).breakdown = fitCategories p a := rfl
    rw [hb] at hc
    simp only [fitCategories, List.mem_cons, List.not_mem_nil, or_false] at hc
    rcases hc with h | h | h | h | h | h <;> subst h
    · exact budgetFit_bounds p a hstretch
    · exact sizeFit_bounds p a.propertySnapshot
    · exact accessFit_bounds p a.propertySnapshot a.claims
    · exact featureFit_bounds p a.propertySnapshot a
    · refine ⟨jsRound_nonneg _ htrust0, ?_⟩
      have h100 := jsRound_le_int 100 a.trustScore (by push_cast; linarith)
      exact_mod_cast h100
    · exact lifestyleFit_bounds p a.propertySnapshot

/-- Witness for C9 (amended): the base profile and analysis (trust 80,
budgetStretch 400). -/
theorem C9_score_bounds_amended_witness :
    (0 ≤ baseAnalysis.trustScore ∧ baseAnalysis.trustScore ≤ 100 ∧
      0 ≤ baseProfile.budgetStretch) ∧
    (0 ≤ (computeFitScore baseProfile baseAnalysis).overallScore ∧
      (computeFitScore baseProfile baseAnalysis).overallScore ≤ 100) ∧
    ∀ c ∈ (computeFitScore baseProfile baseAnalysis).breakdown,
      0 ≤ c.score ∧ c.score ≤ 100 := by
  have h0 : (0 : ℚ) ≤ baseAnalysis.trustScore := by with_unfolding_all decide
  have h1 : baseAnalysis.trustScore ≤ 100 := by with_unfolding_all decide
  have h2 : (0 : ℚ) ≤ baseProfile.budgetStretch := by with_unfolding_all decide
  exact ⟨⟨h0, h1, h2⟩,
    (C9_score_bounds_amended baseProfile baseAnalysis h0 h1 h2).1,
    (C9_score_bounds_amended baseProfile baseAnalysis h0 h1 h2).2⟩

/-- Counterexample to C9 as stated: a well-typed profile with negative
budget ceilings (budgetMax -2, budgetStretch -1) and list price 3 produces a
Budget Fit category score of 215, outside [0, 100], although the supplied
trust score is the integer 80 in [0, 100]. -/
theorem C9_negative_stretch_counterexample :
    (0 ≤ analysisPrice3.trustScore ∧ analysisPrice3.trustScore ≤ 100) ∧
    (((computeFitScore profileNegStretch analysisPrice3).breakdown.map
        (fun c => (c.name, c.score))).head? = Option.some ("Budget Fit", 215)) ∧
    ¬ ((215 : ℚ) ≤ 100) := by
  with_unfolding_all decide

/-! ## Claim C10 -/

theorem mustHaveMissedEntry_importance (snapshot : Option PropertySnapshot)
    (analysis : AnalysisData) (feat : PropertyFeature) (f : FitFeatureMatch)
    (h : mustHaveMissedEntry snapshot analysis feat = Option.some f) :
    f.importance = FeatureImportance.must_have := by
  unfold mustHaveMissedEntry at h
  split at h
  · exact Option.noConfusion h
  · injection h with h2
    subst h2
    rfl
  · injection h with h2
    subst h2
    rfl

theorem niceToHaveMissedEntry_importance (snapshot : Option PropertySnapshot)
    (analysis : AnalysisData) (feat : PropertyFeature) (f : FitFeatureMatch)
    (h : niceToHaveMissedEntry snapshot analysis feat = Option.some f) :
    f.importance = FeatureImportance.nice_to_have := by
  unfold niceToHaveMissedEntry at h
  split at h
  · injection h with h2
    subst h2
    rfl
  · exact Option.noConfusion h

theorem dealbreakerEntry_none (analysis : AnalysisData) (feat : PropertyFeature) :
    dealbreakerEntry Option.none analysis feat = Option.none := rfl

theorem featureFit_missed_none (p : BuyerProfile) (analysis : AnalysisData) :
    ∀ f ∈ (featureFit p Option.none analysis).missed,
      ¬ (f.importance = FeatureImportance.dealbreaker ∧
         f.status = MatchStatus.violated) := by
  intro f hf
  unfold featureFit at hf
  dsimp only at hf
  rw [List.mem_append, List.mem_append] at hf
  rcases hf with (hf | hf) | hf
  · obtain ⟨x, _, he⟩ := List.mem_filterMap.mp hf
    have himp := mustHaveMissedEntry_importance _ _ _ _ he
    rintro ⟨h1, _⟩
    rw [himp] at h1
    cases h1
  · obtain ⟨x, _, he⟩ := List.mem_filterMap.mp hf
    have himp := niceToHaveMissedEntry_importance _ _ _ _ he
    rintro ⟨h1, _⟩
    rw [himp] at h1
    cases h1
  · obtain ⟨x, _, he⟩ := List.mem_filterMap.mp hf
    rw [dealbreakerEntry_none] at he
    cases he

theorem stairsDelta_none_flags (need : AccessibilityNeed) :
    ∀ f ∈ (stairsDelta Option.none need).2.1, f.severity = FlagSeverity.concern := by
  intro f hf
  unfold stairsDelta storiesOf at hf
  dsimp only at hf
  split at hf
  · rcases List.mem_singleton.mp hf with rfl
    rfl
  · simp at hf

theorem sensoryDelta_flags (claims : List Claim) (need : AccessibilityNeed) :
    ∀ f ∈ (sensoryDelta claims need).2, f.severity = FlagSeverity.concern := by
  intro f hf
  unfold sensoryDelta at hf
  split at hf
  · split at hf
    · rcases List.mem_singleton.mp hf with rfl
      rfl
    · simp at hf
  · simp at hf

theorem respiratoryDelta_flags (snapshot : Option PropertySnapshot)
    (need : AccessibilityNeed) :
    ∀ f ∈ (respiratoryDelta snapshot need).2, f.severity = FlagSeverity.concern := by
  intro f hf
  unfold respiratoryDelta at hf
  split at hf
  · split at hf
    · split at hf
      · split at hf
        · rcases List.mem_singleton.mp hf with rfl
          rfl
        · simp at hf
      · simp at hf
    · simp at hf
  · simp at hf

theorem agingDelta_flags (snapshot : Option PropertySnapshot)
    (need : AccessibilityNeed) :
    ∀ f ∈ (agingDelta snapshot need).2.1, f.severity = FlagSeverity.concern := by
  intro f hf
  unfold agingDelta at hf
  split at hf
  · rcases List.mem_singleton.mp hf with rfl
    rfl
  · simp at hf

theorem needDelta_none_no_blocker (claims : List Claim) (need : AccessibilityNeed) :
    ∀ f ∈ (needDelta Option.none claims need).2.1,
      f.severity ≠ FlagSeverity.blocker := by
  intro f hf
  unfold needDelta at hf
  by_cases h : need = AccessibilityNeed.none
  · rw [if_pos h] at hf
    simp at hf
  · rw [if_neg h] at hf
    dsimp only at hf
    rw [List.mem_append, List.mem_append, List.mem_append] at hf
    rcases hf with ((hf | hf) | hf) | hf
    · rw [stairsDelta_none_flags need f hf]
      decide
    · rw [sensoryDelta_flags claims need f hf]
      decide
    · rw [respiratoryDelta_flags Option.none need f hf]
      decide
    · rw [agingDelta_flags Option.none need f hf]
      decide

theorem accessFit_none_no_blocker (p : BuyerProfile) (claims : List Claim) :
    ∀ f ∈ (accessFit p Option.none claims).flags,
      f.severity ≠ FlagSeverity.blocker := by
  intro f hf
  unfold accessFit at hf
  by_cases h : hasAccessibilityNeeds p = true
  · rw [if_pos h] at hf
    dsimp only at hf
    rw [List.mem_flatten] at hf
    obtain ⟨l, hl, hfl⟩ := hf
    rw [List.mem_map] at hl
    obtain ⟨d, hd, rfl⟩ := hl
    rw [List.mem_map] at hd
    obtain ⟨need, _, rfl⟩ := hd
    exact needDelta_none_no_blocker claims need f hfl
  · rw [if_neg h] at hf
    simp at hf

theorem fitHardCap_none (p : BuyerProfile) (a : AnalysisData)
    (hsnap : a.propertySnapshot = Option.none) : fitHardCap p a = false := by
  unfold fitHardCap
  rw [hsnap]
  apply Bool.or_eq_false_iff.mpr
  constructor
  · rw [List.any_eq_false]
    intro f hf
    have := featureFit_missed_none p a f hf
    simp only [Bool.and_eq_true, decide_eq_true_eq]
    exact this
  · rw [List.any_eq_false]
    intro f hf
    have := accessFit_none_no_blocker p a.claims f hf
    simp only [decide_eq_true_eq]
    exact this

/-- C10: when the analysis has no property snapshot, every dealbreaker check
returns unknown, no missed feature is a violated dealbreaker, no
accessibility flag is a blocker, so the 25-point cap never fires and the
label is determined purely by the numeric thresholds — never dealbreaker. -/
theorem C10_no_snapshot_no_dealbreaker (p : BuyerProfile) (a : AnalysisData)
    (hsnap : a.propertySnapshot = Option.none) :
    (∀ feat, checkDealbreaker feat a.propertySnapshot a = DealbreakerStatus.unknown) ∧
    (∀ f ∈ (computeFitScore p a).missedFeatures,
      ¬ (f.importance = FeatureImportance.dealbreaker ∧
         f.status = MatchStatus.violated)) ∧
    (∀ f ∈ (computeFitScore p a).accessibilityFlags,
      f.severity ≠ FlagSeverity.blocker) ∧
    (computeFitScore p a).label = scoreLabel ((computeFitScore p a).overallScore) ∧
    (computeFitScore p a).label ≠ FitLabel.dealbreaker := by
  have hcap := fitHardCap_none p a hsnap
  refine ⟨fun feat => by rw [hsnap]; rfl, ?_, ?_, label_of_no_hardCap p a hcap, ?_⟩
  · intro f hf
    have hm : (computeFitScore p a).missedFeatures =
        (featureFit p a.propertySnapshot a).missed := rfl
    rw [hm, hsnap] at hf
    exact featureFit_missed_none p a f hf
  · intro f hf
    have hm : (computeFitScore p a).accessibilityFlags =
        (accessFit p a.propertySnapshot a.claims).flags := rfl
    rw [hm, hsnap] at hf
    exact accessFit_none_no_blocker p a.claims f hf
  · rw [label_of_no_hardCap p a hcap]
    exact scoreLabel_ne_dealbreaker _

/-- Witness for C10: the base profile against the snapshot-less analysis. -/
theorem C10_no_snapshot_no_dealbreaker_witness :
    baseAnalysis.propertySnapshot = Option.none ∧
    ((∀ feat, checkDealbreaker feat baseAnalysis.propertySnapshot baseAnalysis =
        DealbreakerStatus.unknown) ∧
     (∀ f ∈ (computeFitScore baseProfile baseAnalysis).missedFeatures,
       ¬ (f.importance = FeatureImportance.dealbreaker ∧
          f.status = MatchStatus.violated)) ∧
     (∀ f ∈ (computeFitScore baseProfile baseAnalysis).accessibilityFlags,
       f.severity ≠ FlagSeverity.blocker) ∧
     (computeFitScore baseProfile baseAnalysis).label =
       scoreLabel ((computeFitScore baseProfile baseAnalysis).overallScore) ∧
     (computeFitScore baseProfile baseAnalysis).label ≠ FitLabel.dealbreaker) :=
  ⟨rfl, C10_no_snapshot_no_dealbreaker baseProfile baseAnalysis rfl⟩

end DealBreakr
